import Mathlib

/-!
Verification of the Neo4j CSV batch loader (`big_data.py`).

The loader has two paths:
* `create_node` builds a textual `CREATE` statement by string concatenation,
  escaping single quotes in string values and backtick-quoting property keys
  that contain a space;
* `load_data_from_csv` partitions the CSV rows into fixed-size batches
  (`num_batches = total_rows // batch_size + 1`) and issues one parameterized
  `UNWIND $batch ...` write per batch.

We embed both paths as executable Lean functions over an explicit row model
(Python strings become `List Char` where character-level slicing matters),
and model the external database's documented execution of the bulk statement.
-/

namespace BigData

/-- Scalar value of a CSV cell: string, number, or null, as produced by the
tabular reader. -/
inductive Value where
  | str (s : String)
  | num (n : Int)
  | null
  deriving DecidableEq

/-- A CSV row: an ordered mapping from column name to scalar value. -/
abbrev Record := List (String × Value)

/-- The single-quote character (Python `"'"`). -/
def squoteChar : Char := Char.ofNat 39

/-- The backslash character. -/
def backslashChar : Char := Char.ofNat 92

/-- The backtick character. -/
def backtickChar : Char := Char.ofNat 96

/-- The space character. -/
def spaceChar : Char := Char.ofNat 32

/-- Single-quote as a one-character string. -/
def squote : String := String.singleton squoteChar

/-- Backtick as a one-character string. -/
def backtickStr : String := String.singleton backtickChar

/-- The two-character escape sequence backslash + single-quote that
`value.replace("'", "\\'")` substitutes for each single quote. -/
def escapedQuote : String := String.singleton backslashChar ++ squote

/-- Character-level body of Python's `value.replace("'", "\\'")`: each single
quote is replaced by backslash + quote, all other characters are kept. -/
def escapeChars : List Char → List Char
  | [] => []
  | c :: cs =>
    (if c = squoteChar then [backslashChar, squoteChar] else [c]) ++ escapeChars cs

/-- `value.replace("'", "\\'")` from `create_node` (line 41 of `big_data.py`). -/
def escapeSingleQuotes (s : String) : String := ⟨escapeChars s.data⟩

/-- Key quoting from `create_node` (lines 37–38): a key containing a space is
enclosed in backticks, otherwise kept as is. -/
def quoteKey (k : String) : String :=
  if k.data.contains spaceChar then backtickStr ++ k ++ backtickStr else k

/-- The textual rendering of a value as interpolated by
`f"{key}: '{value}', "` after the `isinstance(value, str)` escaping step:
strings are escaped, numbers and null render via Python `str()`. -/
def renderValue : Value → String
  | .str s => escapeSingleQuotes s
  | .num n => toString n
  | .null => "None"

/-- One `f"{key}: '{value}', "` fragment appended per property
(line 42 of `big_data.py`). -/
def propEntry (kv : String × Value) : String :=
  quoteKey kv.1 ++ ": " ++ squote ++ renderValue kv.2 ++ squote ++ ", "

/-- Python's `query[:-2]` on the character sequence: drop the last two
characters (`s[:-2]` keeps `len(s) - 2` leading characters). -/
def pyDropLast2 (l : List Char) : List Char := l.take (l.length - 2)

/-- The statement text built by `create_node` (lines 35–44 of `big_data.py`):
`"CREATE (n:{label} {"` + one fragment per property + `[:-2]` trim + `"})"`. -/
def create_node_query (label : String) (props : List (String × Value)) : String :=
  ⟨pyDropLast2 ("CREATE (n:" ++ label ++ " \x7b"
      ++ String.join (props.map propEntry)).data⟩ ++ "\x7d)"

/-- The parameterized bulk statement text built in `load_data_from_csv`
(line 67 of `big_data.py`). -/
def bulk_query (label : String) : String :=
  "UNWIND $batch as row CREATE (n:" ++ label ++ ") SET n += row"

/-- `num_batches = (total_rows // batch_size) + 1` (line 59 of `big_data.py`). -/
def num_batches (total_rows batch_size : Nat) : Nat := total_rows / batch_size + 1

/-- The rows selected for batch `i`:
`data.iloc[i*batch_size : min((i+1)*batch_size, total_rows)]`
(lines 63–65 of `big_data.py`). -/
def batch_slice (rows : List Record) (batch_size i : Nat) : List Record :=
  (rows.drop (i * batch_size)).take
    (min ((i + 1) * batch_size) rows.length - i * batch_size)

/-- One `session.run` invocation: the statement text and the list of named
bound parameters (each a list of records). -/
structure RunCall where
  query : String
  params : List (String × List Record)
  deriving DecidableEq

/-- The sequence of `session.run` invocations issued by `load_data_from_csv`
(lines 56–68 of `big_data.py`): for each batch index `i` in
`range(num_batches)`, one call of the bulk statement with the single bound
parameter `batch` holding the slice for `i`. -/
def load_data_from_csv (rows : List Record) (label : String) (batch_size : Nat) :
    List RunCall :=
  (List.range (num_batches rows.length batch_size)).map fun i =>
    ⟨bulk_query label, [("batch", batch_slice rows batch_size i)]⟩

/-- A graph node: a label and a property map. -/
structure Node where
  label : String
  props : Record
  deriving DecidableEq

/-- Modelled from the spec: the external graph database's execution of the bulk
write statement (the §6 wire contract, which is not code of this repository):
given the list-valued parameter `batch` whose elements are property maps,
create one node per element with the given label, all of the element's keys
becoming that node's property keys. -/
def execBulkWrite (label : String) (batch : List Record) : List Node :=
  batch.map fun r => ⟨label, r⟩

/-- All nodes created by one complete run of `load_data_from_csv`:
the concatenation, over the issued calls, of the nodes the database creates
for each call's `batch` parameter. -/
def loadNodes (rows : List Record) (label : String) (batch_size : Nat) :
    List Node :=
  ((load_data_from_csv rows label batch_size).map fun c =>
    (c.params.map fun p => execBulkWrite label p.2).flatten).flatten

/-- A run of the loader against a database already holding `db` nodes:
the created nodes are appended (the database keeps earlier contents). -/
def runLoad (db : List Node) (rows : List Record) (label : String)
    (batch_size : Nat) : List Node :=
  db ++ loadNodes rows label batch_size

/-- The spec's name for a failed batch write: the failing batch index and the
underlying cause. -/
structure BatchWriteError (Cause : Type) where
  batchIndex : Nat
  cause : Cause
  deriving DecidableEq

/-- Sequential execution of the batch writes when each write may fail, the
outcome of the write for batch `i` given by `oracle i`. Returns the committed
nodes, the list of batch indices whose write was attempted (in order), and the
error that stopped the run, if any. A failing write commits nothing for its
own batch, stops the loop (the exception propagates out of the `for`), and
earlier batches' writes stay committed (each `session.run` auto-commits). -/
def runBatchesAux {Cause : Type} (oracle : Nat → Except Cause Unit)
    (label : String) :
    Nat → List (List Record) → List Node × List Nat × Option (BatchWriteError Cause)
  | _, [] => ([], [], none)
  | i, b :: rest =>
    match oracle i with
    | .error c => ([], [i], some ⟨i, c⟩)
    | .ok _ =>
      let r := runBatchesAux oracle label (i + 1) rest
      (execBulkWrite label b ++ r.1, i :: r.2.1, r.2.2)

/-- The batches of a run, in issue order. -/
def batchesOf (rows : List Record) (batch_size : Nat) : List (List Record) :=
  (List.range (num_batches rows.length batch_size)).map (batch_slice rows batch_size)

/-- A run of `load_data_from_csv` under the failure oracle `oracle`. -/
def runLoadFailing {Cause : Type} (oracle : Nat → Except Cause Unit)
    (rows : List Record) (label : String) (batch_size : Nat) :
    List Node × List Nat × Option (BatchWriteError Cause) :=
  runBatchesAux oracle label 0 (batchesOf rows batch_size)

/-- Modelled from the spec: a minimal syntax acceptance check standing for the
external database's statement parser (not code of this repository). Single
quotes delimit string literals (inside which a backslash escapes the next
character), backticks delimit quoted identifiers, and outside such literals
the parentheses and braces must nest properly; the statement is accepted when
the scan ends outside any literal with an empty bracket stack. -/
def scanOk : List Char → List Char → Bool → Bool → Bool → Bool
  | [], stack, inStr, inTick, esc => stack.isEmpty && !inStr && !inTick && !esc
  | c :: cs, stack, inStr, inTick, esc =>
    if esc then scanOk cs stack inStr inTick false
    else if inStr then
      if c = backslashChar then scanOk cs stack true inTick true
      else if c = squoteChar then scanOk cs stack false inTick false
      else scanOk cs stack true inTick false
    else if inTick then
      if c = backtickChar then scanOk cs stack inStr false false
      else scanOk cs stack inStr true false
    else if c = squoteChar then scanOk cs stack true inTick false
    else if c = backtickChar then scanOk cs stack inStr true false
    else if c = Char.ofNat 40 then scanOk cs (Char.ofNat 41 :: stack) inStr inTick false
    else if c = Char.ofNat 123 then scanOk cs (Char.ofNat 125 :: stack) inStr inTick false
    else if c = Char.ofNat 41 || c = Char.ofNat 125 then
      match stack with
      | [] => false
      | top :: rest => if c = top then scanOk cs rest inStr inTick false else false
    else scanOk cs stack inStr inTick false

/-- Whether the database's minimal syntax check accepts the statement. -/
def statementAccepted (stmt : String) : Bool :=
  scanOk stmt.data [] false false false

/-- Concrete rows used to instantiate universally quantified results. -/
def rows0 : List Record :=
  [[("id", Value.num 1)], [("id", Value.num 2)], [("id", Value.num 3)]]

/-- A failure oracle whose batch 1 write fails and all others succeed. -/
def oracle0 : Nat → Except String Unit :=
  fun i => if i = 1 then .error "boom" else .ok ()

/-! ## Helper lemmas about the batch partition -/

theorem batch_slice_eq (rows : List Record) (bs i : Nat) :
    batch_slice rows bs i = (rows.drop (i * bs)).take bs := by
  unfold batch_slice
  have e : (i + 1) * bs = i * bs + bs := by ring
  rcases le_total ((i + 1) * bs) rows.length with h | h
  · rw [min_eq_left h, e, Nat.add_sub_cancel_left]
  · rw [min_eq_right h]
    have h1 : (rows.drop (i * bs)).length ≤ rows.length - i * bs := by
      simp [List.length_drop]
    have h2 : (rows.drop (i * bs)).length ≤ bs := by
      simp only [List.length_drop]
      omega
    rw [List.take_of_length_le h1, List.take_of_length_le h2]

theorem range_map_take_flatten {α : Type} (rows : List α) (bs : Nat) (k : Nat) :
    ((List.range k).map fun i => (rows.drop (i * bs)).take bs).flatten
      = rows.take (k * bs) := by
  induction k with
  | zero => simp
  | succ k ih =>
    rw [List.range_succ, List.map_append, List.flatten_append, ih]
    simp only [List.map_cons, List.map_nil, List.flatten_cons, List.flatten_nil,
      List.append_nil]
    rw [← List.take_add]
    congr 1
    ring

theorem length_lt_num_batches_mul (total bs : Nat) (h : 1 ≤ bs) :
    total < num_batches total bs * bs := by
  unfold num_batches
  have hd := Nat.div_add_mod total bs
  have hm : total % bs < bs := Nat.mod_lt _ (by omega)
  have e : (total / bs + 1) * bs = bs * (total / bs) + bs := by ring
  omega

theorem batchesOf_flatten (rows : List Record) (bs : Nat) (h : 1 ≤ bs) :
    (batchesOf rows bs).flatten = rows := by
  unfold batchesOf
  have hf : batch_slice rows bs = fun i => (rows.drop (i * bs)).take bs :=
    funext (batch_slice_eq rows bs)
  rw [hf, range_map_take_flatten]
  exact List.take_of_length_le
    (le_of_lt (length_lt_num_batches_mul rows.length bs h))

theorem loadNodes_eq (rows : List Record) (label : String) (bs : Nat) :
    loadNodes rows label bs = ((batchesOf rows bs).map (execBulkWrite label)).flatten := by
  unfold loadNodes load_data_from_csv batchesOf
  simp only [List.map_map]
  apply congrArg List.flatten
  apply List.map_congr_left
  intro i _
  simp [Function.comp]

theorem loadNodes_length (rows : List Record) (label : String) (bs : Nat)
    (h : 1 ≤ bs) : (loadNodes rows label bs).length = rows.length := by
  rw [loadNodes_eq, List.length_flatten, List.map_map]
  have hc : List.length ∘ execBulkWrite label = List.length := by
    funext b
    simp [execBulkWrite]
  rw [hc, ← List.length_flatten, batchesOf_flatten rows bs h]

theorem pyDropLast2_append (x y : List Char) (h : 2 ≤ y.length) :
    pyDropLast2 (x ++ y) = x ++ pyDropLast2 y := by
  unfold pyDropLast2
  have e : (x ++ y).length - 2 = x.length + (y.length - 2) := by
    simp only [List.length_append]
    omega
  rw [e, List.take_append]

theorem pyDropLast2_append_two (x y : List Char) (h : y.length = 2) :
    pyDropLast2 (x ++ y) = x := by
  rw [pyDropLast2_append x y (by omega)]
  unfold pyDropLast2
  rw [h]
  simp

theorem escapeChars_eq_flatMap (l : List Char) :
    escapeChars l = l.flatMap fun c =>
      if c = squoteChar then [backslashChar, squoteChar] else [c] := by
  induction l with
  | nil => rfl
  | cons c cs ih => simp [escapeChars, ih]

theorem propEntry_data (kv : String × Value) :
    (propEntry kv).data =
      ((quoteKey kv.1).data ++ ": ".data ++ squote.data
        ++ (renderValue kv.2).data ++ squote.data) ++ ", ".data := by
  simp [propEntry, String.data_append, List.append_assoc]

theorem foldl_append_data (l : List String) :
    ∀ init : String, (List.foldl (fun r s => r ++ s) init l).data
      = init.data ++ (l.map String.data).flatten := by
  induction l with
  | nil =>
    intro init
    simp
  | cons a l ih =>
    intro init
    simp only [List.foldl_cons, ih, List.map_cons, List.flatten_cons,
      String.data_append]
    simp [List.append_assoc]

theorem join_data (l : List String) :
    (String.join l).data = (l.map String.data).flatten := by
  have h := foldl_append_data l ""
  simpa [String.join] using h

theorem create_node_query_data (label : String) (props : List (String × Value)) :
    (create_node_query label props).data =
      pyDropLast2 ("CREATE (n:".data ++ label.data ++ " \x7b".data
        ++ (String.join (props.map propEntry)).data) ++ "\x7d)".data := by
  unfold create_node_query
  rw [String.data_append]
  congr 2

theorem create_node_query_nil (label : String) :
    create_node_query label [] = "CREATE (n:" ++ label ++ "\x7d)" := by
  apply String.ext
  rw [create_node_query_data]
  have e : "CREATE (n:".data ++ label.data ++ " \x7b".data
        ++ (String.join ([].map propEntry)).data
      = ("CREATE (n:".data ++ label.data) ++ " \x7b".data := by
    simp [join_data, List.append_assoc]
  rw [e, pyDropLast2_append_two ("CREATE (n:".data ++ label.data) (" \x7b".data)
    (by decide)]
  simp [String.data_append]

theorem two_le_propEntry_length (kv : String × Value) :
    2 ≤ (propEntry kv).data.length := by
  rw [propEntry_data]
  simp only [List.length_append, List.length_cons, List.length_nil]
  omega

theorem create_node_query_cons_data (label : String) (kv : String × Value)
    (rest : List (String × Value)) :
    (create_node_query label (kv :: rest)).data =
      "CREATE (n:".data ++ label.data ++ " \x7b".data
        ++ pyDropLast2 ((String.join ((kv :: rest).map propEntry)).data)
        ++ "\x7d)".data := by
  rw [create_node_query_data]
  have h2 : 2 ≤ ((String.join ((kv :: rest).map propEntry)).data).length := by
    rw [join_data]
    simp only [List.map_cons, List.flatten_cons, List.length_append]
    have h := two_le_propEntry_length kv
    omega
  have hassoc : "CREATE (n:".data ++ label.data ++ " \x7b".data
        ++ (String.join ((kv :: rest).map propEntry)).data
      = ("CREATE (n:".data ++ label.data ++ " \x7b".data)
        ++ (String.join ((kv :: rest).map propEntry)).data := by
    simp [List.append_assoc]
  rw [hassoc, pyDropLast2_append _ _ h2]

theorem runBatchesAux_fail {Cause : Type} (oracle : Nat → Except Cause Unit)
    (label : String) (c : Cause) :
    ∀ (k a : Nat) (l : List (List Record)),
      (∀ j, j < k → oracle (a + j) = .ok ()) →
      oracle (a + k) = .error c →
      k < l.length →
      runBatchesAux oracle label a l =
        (((l.take k).map (execBulkWrite label)).flatten,
          List.range' a (k + 1), some ⟨a + k, c⟩) := by
  intro k
  induction k with
  | zero =>
    intro a l _ hfail hlen
    match l, hlen with
    | b :: rest, _ =>
      simp only [Nat.add_zero] at hfail
      simp [runBatchesAux, hfail, List.range'_succ, List.range']
  | succ k ih =>
    intro a l hok hfail hlen
    match l, hlen with
    | b :: rest, hlen =>
      have h0 : oracle a = .ok () := by
        have h := hok 0 (Nat.succ_pos k)
        simpa using h
      have hok2 : ∀ j, j < k → oracle (a + 1 + j) = .ok () := by
        intro j hj
        have h := hok (j + 1) (by omega)
        have e : a + (j + 1) = a + 1 + j := by omega
        rwa [e] at h
      have hfail2 : oracle (a + 1 + k) = .error c := by
        have e : a + (k + 1) = a + 1 + k := by omega
        rwa [e] at hfail
      have hlen2 : k < rest.length := by
        simp only [List.length_cons] at hlen
        omega
      have hr := ih (a + 1) rest hok2 hfail2 hlen2
      have eidx : a + 1 + k = a + (k + 1) := by omega
      rw [eidx] at hr
      simp only [runBatchesAux, h0, hr, List.take_succ_cons, List.map_cons,
        List.flatten_cons, List.range'_succ, List.cons_append]

/-! ## Claim theorems -/

/-- Claim C1: for any row count and batch size ≥ 1, `load_data_from_csv`
computes `num_batches = total_rows / batch_size + 1`, and when the row count is
an exact positive multiple of the batch size the trailing batch's row slice is
empty while a write is still issued for it with an empty `batch` parameter. -/
theorem c1_trailing_empty_batch (rows : List Record) (label : String) (bs : Nat)
    (_hbs : 1 ≤ bs) (hmul : rows.length % bs = 0) (_hpos : 0 < rows.length) :
    num_batches rows.length bs = rows.length / bs + 1
    ∧ batch_slice rows bs (rows.length / bs) = []
    ∧ (load_data_from_csv rows label bs)[rows.length / bs]? =
        some ⟨bulk_query label, [("batch", [])]⟩ := by
  have hempty : batch_slice rows bs (rows.length / bs) = [] := by
    rw [batch_slice_eq, Nat.div_mul_cancel (Nat.dvd_of_mod_eq_zero hmul)]
    simp [List.drop_length]
  refine ⟨rfl, hempty, ?_⟩
  unfold load_data_from_csv num_batches
  rw [List.getElem?_map, List.getElem?_range (Nat.lt_succ_self _)]
  simp [hempty]

theorem c1_witness :
    rows0.length % 1 = 0 ∧ 0 < rows0.length ∧
    (load_data_from_csv rows0 "L" 1)[rows0.length / 1]? =
      some ⟨bulk_query "L", [("batch", [])]⟩ :=
  ⟨by decide, by decide,
    (c1_trailing_empty_batch rows0 "L" 1 (by decide) (by decide) (by decide)).2.2⟩

/-- Claim C2: for batch size ≥ 1 the batches are exactly the slices
`[i*bs, min((i+1)*bs, totalRows))`, every batch holds at most `bs` rows,
position `j` of batch `i` is row `i*bs + j` of the input (so the batches are
non-overlapping, in original order), and the concatenation of all issued
batches reconstructs the input rows in order and count. -/
theorem c2_partition (rows : List Record) (bs : Nat) (hbs : 1 ≤ bs) :
    (∀ i, batch_slice rows bs i =
      (rows.drop (i * bs)).take (min ((i + 1) * bs) rows.length - i * bs))
    ∧ (∀ i, (batch_slice rows bs i).length ≤ bs)
    ∧ (∀ i j, j < bs → (batch_slice rows bs i)[j]? = rows[i * bs + j]?)
    ∧ (batchesOf rows bs).flatten = rows := by
  refine ⟨fun i => rfl, fun i => ?_, fun i j hj => ?_,
    batchesOf_flatten rows bs hbs⟩
  · rw [batch_slice_eq]
    simp only [List.length_take, List.length_drop]
    omega
  · rw [batch_slice_eq, List.getElem?_take, if_pos hj, List.getElem?_drop]

theorem c2_witness :
    (1 : Nat) ≤ 2 ∧ (batchesOf rows0 2).flatten = rows0 :=
  ⟨by decide, (c2_partition rows0 2 (by decide)).2.2.2⟩

/-- Claim C3: each batch causes exactly one statement invocation; call `i`'s
statement text is the fixed bulk template around the label, so the records are
never interpolated into the text, and its parameter list is exactly the single
binding of name `batch` to the records of batch `i`; executing such a call
creates one node per list element, the element's keys becoming that node's
property keys. -/
theorem c3_bulk_contract (rows : List Record) (label : String) (bs : Nat) :
    (load_data_from_csv rows label bs).length = num_batches rows.length bs
    ∧ (∀ i, i < num_batches rows.length bs →
        (load_data_from_csv rows label bs)[i]? =
          some ⟨"UNWIND $batch as row CREATE (n:" ++ label ++ ") SET n += row",
            [("batch", batch_slice rows bs i)]⟩)
    ∧ (∀ b : List Record, (execBulkWrite label b).length = b.length
        ∧ ∀ j : Nat, (execBulkWrite label b)[j]? =
            (b[j]?).map fun r => (⟨label, r⟩ : Node)) := by
  refine ⟨by simp [load_data_from_csv], fun i hi => ?_, fun b =>
    ⟨by simp [execBulkWrite], fun j => by simp [execBulkWrite]⟩⟩
  unfold load_data_from_csv
  rw [List.getElem?_map, List.getElem?_range hi]
  simp [bulk_query]

theorem c3_witness :
    0 < num_batches rows0.length 2 ∧
    (load_data_from_csv rows0 "L" 2)[0]? =
      some ⟨"UNWIND $batch as row CREATE (n:" ++ "L" ++ ") SET n += row",
        [("batch", batch_slice rows0 2 0)]⟩ :=
  ⟨by decide, (c3_bulk_contract rows0 "L" 2).2.1 0 (by decide)⟩

/-- Claim C4: a run against a header-only CSV (zero data rows) completes and
creates zero nodes; the issued calls are still one per computed batch. -/
theorem c4_empty_source (label : String) (bs : Nat) :
    loadNodes [] label bs = []
    ∧ (load_data_from_csv [] label bs).length = num_batches 0 bs := by
  constructor
  · rw [loadNodes_eq, List.flatten_eq_nil_iff]
    intro x hx
    simp only [batchesOf, List.map_map, List.mem_map, List.mem_range] at hx
    obtain ⟨i, _, rfl⟩ := hx
    simp [Function.comp, batch_slice_eq, execBulkWrite]
  · simp [load_data_from_csv]

/-- Claim C6: if the writes for batches `0 .. k-1` succeed and the write for
batch `k` fails with cause `c`, the committed nodes are exactly those of the
batches before `k` (kept, not rolled back), the attempted batch indices are
exactly `0 .. k` in order (no later batch, no retry), and the run ends with a
`BatchWriteError` carrying the failing index `k` and the cause. -/
theorem c6_batch_failure {Cause : Type} (oracle : Nat → Except Cause Unit)
    (rows : List Record) (label : String) (bs k : Nat) (c : Cause)
    (hok : ∀ j, j < k → oracle j = .ok ())
    (hfail : oracle k = .error c)
    (hk : k < num_batches rows.length bs) :
    runLoadFailing oracle rows label bs =
      (((List.range k).map fun i => execBulkWrite label (batch_slice rows bs i)).flatten,
        List.range (k + 1), some ⟨k, c⟩) := by
  unfold runLoadFailing
  have h := runBatchesAux_fail oracle label c k 0 (batchesOf rows bs)
    (by simpa using hok) (by simpa using hfail) (by simpa [batchesOf] using hk)
  rw [h]
  have e1 : ((batchesOf rows bs).take k).map (execBulkWrite label)
      = (List.range k).map fun i => execBulkWrite label (batch_slice rows bs i) := by
    unfold batchesOf
    rw [← List.map_take, List.take_range, List.map_map]
    have e : min k (num_batches rows.length bs) = k := by omega
    rw [e]
    rfl
  rw [e1]
  simp [List.range_eq_range']

theorem c6_witness :
    (∀ j, j < 1 → oracle0 j = .ok ()) ∧ oracle0 1 = .error "boom" ∧
    runLoadFailing oracle0 rows0 "L" 2 =
      (((List.range 1).map fun i => execBulkWrite "L" (batch_slice rows0 2 i)).flatten,
        List.range 2, some ⟨1, "boom"⟩) :=
  ⟨fun j hj => by
      have e : j = 0 := by omega
      subst e
      rfl,
    rfl,
    c6_batch_failure oracle0 rows0 "L" 2 1 "boom"
      (fun j hj => by
        have e : j = 0 := by omega
        subst e
        rfl)
      rfl (by decide)⟩

/-- Claim C7: the loader is not idempotent — one run appends exactly one node
per input record, and running it twice with identical input appends exactly
twice the record count (no merge, upsert, or deduplication). -/
theorem c7_not_idempotent (db : List Node) (rows : List Record) (label : String)
    (bs : Nat) (hbs : 1 ≤ bs) :
    (runLoad db rows label bs).length = db.length + rows.length
    ∧ (runLoad (runLoad db rows label bs) rows label bs).length
        = db.length + 2 * rows.length := by
  have h1 := loadNodes_length rows label bs hbs
  constructor
  · simp [runLoad, h1]
  · simp [runLoad, h1]
    omega

theorem c7_witness :
    (1 : Nat) ≤ 2 ∧
    (runLoad (runLoad [] rows0 "L" 2) rows0 "L" 2).length
      = ([] : List Node).length + 2 * rows0.length :=
  ⟨by decide, (c7_not_idempotent [] rows0 "L" 2 (by decide)).2⟩

/-- Claim C5: in the statement built by `create_node`, every property value is
embedded as a single-quoted string literal, every single quote occurring in a
string value is escaped by prefixing a backslash, every key containing a space
is backtick-delimited, and for `{"first name": "O'Brien"}` the produced
statement is syntactically acceptable to the database. -/
theorem c5_escaping :
    (∀ s : String, (escapeSingleQuotes s).data = s.data.flatMap fun c =>
        if c = squoteChar then [backslashChar, squoteChar] else [c])
    ∧ (∀ k : String, k.data.contains spaceChar = true →
        quoteKey k = backtickStr ++ k ++ backtickStr)
    ∧ create_node_query "Person" [("first name", Value.str ("O" ++ squote ++ "Brien"))]
        = "CREATE (n:Person \x7b" ++ backtickStr ++ "first name" ++ backtickStr ++ ": "
          ++ squote ++ "O" ++ escapedQuote ++ "Brien" ++ squote ++ "\x7d)"
    ∧ statementAccepted
        ("CREATE (n:Person \x7b" ++ backtickStr ++ "first name" ++ backtickStr ++ ": "
          ++ squote ++ "O" ++ escapedQuote ++ "Brien" ++ squote ++ "\x7d)") = true := by
  refine ⟨fun s => escapeChars_eq_flatMap s.data, fun k hk => ?_, by decide, by decide⟩
  simp only [quoteKey, hk, ite_true]

theorem c5_witness :
    ("first name" : String).data.contains spaceChar = true ∧
    quoteKey "first name" = backtickStr ++ "first name" ++ backtickStr :=
  ⟨by decide, c5_escaping.2.1 "first name" (by decide)⟩

/-- Claim C8: with an empty properties mapping, the `[:-2]` trim of `create_node`
removes the opening brace (and the space before it) instead of a trailing comma
and space, so the built statement is `CREATE (n:<label>})` — rejected by the
database's syntax check as unbalanced. -/
theorem c8_empty_props_malformed (label : String) :
    create_node_query label [] = "CREATE (n:" ++ label ++ "\x7d)"
    ∧ statementAccepted (create_node_query "Person" []) = false :=
  ⟨create_node_query_nil label, by decide⟩

/-- Claim C9: in both `create_node` and `load_data_from_csv`, the node label is
interpolated verbatim into the statement text — for every label `L` and
property list, the built statement contains `L` unchanged as a substring. -/
theorem c9_label_verbatim (label : String) (props : List (String × Value)) :
    (∃ pre post : String, create_node_query label props = pre ++ label ++ post)
    ∧ ∃ pre post : String, bulk_query label = pre ++ label ++ post := by
  constructor
  · match props with
    | [] =>
      exact ⟨"CREATE (n:", "\x7d)", create_node_query_nil label⟩
    | kv :: rest =>
      refine ⟨"CREATE (n:",
        ⟨" \x7b".data ++ pyDropLast2 ((String.join ((kv :: rest).map propEntry)).data)
          ++ "\x7d)".data⟩, ?_⟩
      apply String.ext
      rw [create_node_query_cons_data]
      simp [String.data_append, List.append_assoc]
  · exact ⟨"UNWIND $batch as row CREATE (n:", ") SET n += row", rfl⟩

/-- Claim C10: `create_node` encloses every property value in single quotes
regardless of its type — the built statement embeds the value's textual
rendering between quotes, where numbers render via `str()`, null renders as
`None`, and only string values get single-quote escaping. -/
theorem c10_values_always_quoted (label k : String) (v : Value) :
    create_node_query label [(k, v)] =
      "CREATE (n:" ++ label ++ " \x7b" ++ quoteKey k ++ ": "
        ++ squote ++ renderValue v ++ squote ++ "\x7d)"
    ∧ (∀ n : Int, renderValue (Value.num n) = toString n)
    ∧ renderValue Value.null = "None"
    ∧ ∀ s : String, renderValue (Value.str s) = escapeSingleQuotes s := by
  refine ⟨?_, fun n => rfl, rfl, fun s => rfl⟩
  apply String.ext
  rw [create_node_query_cons_data]
  have hj : (String.join ([(k, v)].map propEntry)).data = (propEntry (k, v)).data := by
    simp [join_data]
  rw [hj, propEntry_data, pyDropLast2_append_two _ _ (by decide)]
  simp [String.data_append, List.append_assoc]

end BigData
